import Mathlib

/-!
Shallow embedding of the core of the gam-cli Google Ad Manager client
(src/index.js and src/soap_forecast.js) and proofs about its behaviour.

JavaScript numbers are modelled as exact rationals, with a separate NaN
value where the source can produce one; JS null/undefined is modelled by
Option, and JS truthiness is made explicit at each use site.  Host
facilities whose behaviour the source merely consumes (the generic string
parser behind new Date) are passed in as explicit oracle parameters.
-/

namespace GamCli

/-- A JavaScript number: an exact rational, or NaN. -/
inductive JsNum where
  | num (q : ℚ)
  | nan
deriving DecidableEq

/-- JS truthiness of a number: 0 and NaN are falsy. -/
def JsNum.truthy : JsNum → Bool
  | .num q => q != 0
  | .nan => false

/-- The coercion pattern (Number(x) || 0): NaN (and 0) collapse to 0. -/
def jsOrZero : JsNum → ℚ
  | .num q => q
  | .nan => 0

/-- Truthiness of a possibly-null JS number. -/
def optTruthy : Option JsNum → Bool
  | some v => v.truthy
  | none => false

/-- The comparison (x > r) for a possibly-null number against a plain
number.  Comparisons against NaN are false; the source only compares
values it has already checked to be truthy, so the null case is
unreachable there and modelled as false. -/
def jsGtO (x : Option JsNum) (r : ℚ) : Bool :=
  match x with
  | some (.num q) => r < q
  | _ => false

/-- The comparison (x < r), with the same conventions as jsGtO. -/
def jsLtO (x : Option JsNum) (r : ℚ) : Bool :=
  match x with
  | some (.num q) => q < r
  | _ => false

/-- JS (a || b) on nullable strings: the empty string is falsy. -/
def jsOrS : Option String → Option String → Option String
  | some s, b => if s = "" then b else some s
  | none, b => b

/-- Truthiness of a nullable string. -/
def strTruthy : Option String → Bool
  | some s => s != ""
  | none => false

/-! ## parseTime (src/index.js lines 151-160)

The raw timestamp argument.  The source checks (!t), then
(typeof t === 'string'), then (typeof t === 'object'); the object case
reads t.seconds ?? t._seconds and t.nanos ?? t._nanos ?? 0.  Field
values are modelled post Number(): secondsAlt/nanosAlt stand for the
underscore-named wire fields _seconds/_nanos. -/
structure TimeObj where
  seconds : Option JsNum
  secondsAlt : Option JsNum
  nanos : Option JsNum
  nanosAlt : Option JsNum
deriving DecidableEq

/-- The input value of parseTime: a falsy value (null, undefined, 0, the
empty string, false, NaN), a truthy string, a truthy object, or any other
truthy value (e.g. a nonzero number), which falls off the end. -/
inductive TimeInput where
  | falsy
  | str (s : String)
  | obj (o : TimeObj)
  | otherTruthy
deriving DecidableEq

/-- parseTime from getOrders (src/index.js lines 151-160).  The dateParse
oracle stands for new Date(s).getTime() on a string: an epoch-millisecond
number, or NaN when the host cannot parse the string. -/
def parseTime (dateParse : String → JsNum) : TimeInput → Option JsNum
  | .falsy => none
  | .str s => some (dateParse s)
  | .obj o =>
      match o.seconds.orElse (fun _ => o.secondsAlt) with
      | some sec =>
          let nano := (o.nanos.orElse (fun _ => o.nanosAlt)).getD (.num 0)
          some (.num (jsOrZero sec * 1000 + jsOrZero nano / 1000000))
      | none => none
  | .otherTruthy => none

/-! ## Order status normalization and the delivery-window classifier
(src/index.js lines 162-213) -/

/-- The raw status field of an order as returned by the API
(order.status ?? order.state): a numeric code, a string, or absent. -/
inductive RawStatus where
  | num (n : ℤ)
  | str (s : String)
  | missing
deriving DecidableEq

/-- The statusNumToName table (src/index.js line 194). -/
def statusNumToName : ℤ → Option String
  | 1 => some "DRAFT"
  | 2 => some "PENDING_APPROVAL"
  | 3 => some "APPROVED"
  | 4 => some "DISAPPROVED"
  | 5 => some "PAUSED"
  | 6 => some "CANCELED"
  | 7 => some "DELETED"
  | _ => none

/-- A displayed status value: the source keeps the raw number when the
table lookup misses, so the display value is a string or a number. -/
inductive StatusVal where
  | s (v : String)
  | n (v : ℤ)
deriving DecidableEq

/-- String(orderStatus || '') (src/index.js line 167). -/
def statusStrOf : RawStatus → String
  | .num n => if n = 0 then "" else toString n
  | .str s => s
  | .missing => ""

/-- The non-filtered display status (src/index.js line 195):
numeric codes go through the table, with the raw number kept on a miss;
anything else displays as String(orderStatus || ''). -/
def normalizeOrderStatus : RawStatus → StatusVal
  | .num n =>
      match statusNumToName n with
      | some name => .s name
      | none => .n n
  | r => .s (statusStrOf r)

/-- The fields of a raw order that the delivery-window logic consumes.
startTimeRaw and endTimeRaw stand for order.startTime ?? order.start_time
and order.endTime ?? order.end_time; unlimited is the truthiness of
order.unlimitedEndTime ?? order.unlimited_end_time. -/
structure RawOrder where
  startTimeRaw : TimeInput
  endTimeRaw : TimeInput
  unlimited : Bool
  rawStatus : RawStatus
deriving DecidableEq

/-- 365.25 days in milliseconds: 365.25 * 24 * 60 * 60 * 1000, which is
exactly 31557600000 (src/index.js line 190). -/
def oneYearMs : ℚ := 31557600000

/-- The three delivery-window checks of getOrders (src/index.js lines
188-191), run only when the currently-delivering filter was requested.
Returns false exactly when one of the three continue statements fires. -/
def windowKeeps (dateParse : String → JsNum) (o : RawOrder) (now : ℚ) : Bool :=
  let startMs := parseTime dateParse o.startTimeRaw
  let endMs := parseTime dateParse o.endTimeRaw
  if !optTruthy startMs || jsGtO startMs now then false
  else if !o.unlimited && (!optTruthy endMs || jsLtO endMs now) then false
  else if jsLtO startMs (now - oneYearMs) then false
  else true

/-- Per-order outcome of the listing loop (src/index.js lines 173-196):
none when the order is skipped by the delivery-window filter, otherwise
the display status recorded for it (DELIVERING when the filter was
requested, the normalized raw status otherwise). -/
def orderEntry (dateParse : String → JsNum) (wantCurrentlyDelivering : Bool)
    (o : RawOrder) (now : ℚ) : Option StatusVal :=
  if wantCurrentlyDelivering && !windowKeeps dateParse o now then none
  else some (if wantCurrentlyDelivering then .s "DELIVERING"
             else normalizeOrderStatus o.rawStatus)

/-- Modelled from the claim wording, for comparison with the source
classifier: keep an order when the parsed start time is present and not
after now, the order is flagged unlimited-end or the parsed end time is
present and not before now, and the start time is not earlier than now
minus 365.25 days. -/
def deliveringSpec (startMs endMs : Option JsNum) (unlimited : Bool) (now : ℚ) : Bool :=
  (match startMs with | some (.num q) => decide (q ≤ now) | _ => false) &&
  (unlimited || (match endMs with | some (.num q) => decide (now ≤ q) | _ => false)) &&
  (match startMs with | some (.num q) => decide (now - oneYearMs ≤ q) | _ => false)

/-! ## Number formatting helpers -/

/-- Left-pad a digit string with zeros to the given width. -/
def padZeros (w : Nat) (s : String) : String :=
  if s.length < w then String.mk (List.replicate (w - s.length) '0') ++ s else s

/-- x.toFixed(digits) on an exact rational: the sign is split off and the
magnitude is rounded to the nearest multiple of 10 ^ (-digits), ties going
to the larger magnitude, per the ECMAScript Number.prototype.toFixed
algorithm. -/
def jsToFixed (digits : Nat) (x : ℚ) : String :=
  let neg := x < 0
  let m := |x|
  let n : ℤ := ⌊m * (10 : ℚ) ^ digits + 1 / 2⌋
  let np := n.toNat
  let ip := np / 10 ^ digits
  let fp := np % 10 ^ digits
  (if neg then "-" else "") ++ toString ip ++
    (if digits = 0 then "" else "." ++ padZeros digits (toString fp))

/-- Insert a comma after every third digit of a reversed digit list. -/
def groupRev : List Char → List Char
  | a :: b :: c :: d :: rest => a :: b :: c :: ',' :: groupRev (d :: rest)
  | l => l
termination_by l => l.length

/-- n.toLocaleString() for an integer under the en-US default locale of
Node: decimal digits in groups of three separated by commas. -/
def toLocaleStringInt (n : ℤ) : String :=
  (if n < 0 then "-" else "") ++
    String.mk (groupRev (toString n.natAbs).toList.reverse).reverse

/-! ## Order metrics join (src/index.js lines 215-266) -/

/-- The impressions/clicks pair the metrics report yields per entity id. -/
structure OrderMetrics where
  impressions : ℤ
  clicks : ℤ
deriving DecidableEq

/-- An error thrown by the JS runtime or a remote call: err?.message
(which can be absent or empty) and the non-empty rendering String(err). -/
structure JsError where
  message : Option String
  asString : String
deriving DecidableEq

/-- _getOrderMetrics (src/index.js lines 229-266): an empty id list short
circuits to an empty map, and the whole report attempt runs inside a
try/catch whose catch returns the empty map.  The attempt argument is the
outcome of the try block: the metrics map it built, or the error thrown
anywhere inside it. -/
def getOrderMetrics (orderIds : List String)
    (attempt : Except JsError (List (String × OrderMetrics))) :
    List (String × OrderMetrics) :=
  if orderIds.isEmpty then []
  else
    match attempt with
    | .ok m => m
    | .error _ => []

/-- An order record as built by the listing loop, before the metrics
join (src/index.js lines 202-211). -/
structure OrderRecordPre where
  id : Option String
  name : String
  status : StatusVal
  startDate : String
  endDate : String
  currency : String
  advertiserId : String
deriving DecidableEq

/-- An order record after the metrics join (src/index.js lines 221-225). -/
structure OrderRecord extends OrderRecordPre where
  lineItemCount : Nat
  impressions : ℤ
  clicks : ℤ
deriving DecidableEq

/-- The per-order enrichment of the metrics join: lineCounts[o.id] ?? 0,
metrics[o.id]?.impressions ?? 0, metrics[o.id]?.clicks ?? 0. -/
def enrichOrder (lineCounts : List (String × Nat))
    (metrics : List (String × OrderMetrics)) (o : OrderRecordPre) : OrderRecord :=
  let mo := match o.id with
    | some i => metrics.lookup i
    | none => none
  { toOrderRecordPre := o
    lineItemCount := (match o.id with
      | some i => lineCounts.lookup i
      | none => none).getD 0
    impressions := (mo.map (fun v => v.impressions)).getD 0
    clicks := (mo.map (fun v => v.clicks)).getD 0 }

/-- The orders.forEach metrics join (src/index.js lines 221-225). -/
def joinOrderMetrics (orders : List OrderRecordPre)
    (lineCounts : List (String × Nat)) (metrics : List (String × OrderMetrics)) :
    List OrderRecord :=
  orders.map (enrichOrder lineCounts metrics)

/-! ## Line item join: CTR and progress (src/index.js lines 388-401) -/

/-- The fields of a line item record the metrics join consumes. -/
structure LineItemPre where
  id : Option String
  goalUnits : Option ℤ
  goalUnitType : String
deriving DecidableEq

/-- A line item record after the metrics join. -/
structure LineItemJoined extends LineItemPre where
  impressions : ℤ
  clicks : ℤ
  ctr : String
  progress : String
deriving DecidableEq

/-- The per-line-item enrichment (src/index.js lines 390-400):
impressions and clicks default to 0 when the id is absent from the map;
ctr is (clicks / impressions * 100).toFixed(2) + a percent sign when
impressions > 0 and the placeholder otherwise; progress is
(delivered / goalUnits * 100).toFixed(1) + a percent sign when goalUnits
is present and positive, delivered being clicks for the CLICKS goal type
and impressions otherwise. -/
def joinLineItem (metrics : List (String × OrderMetrics)) (li : LineItemPre) :
    LineItemJoined :=
  let mo := match li.id with
    | some i => metrics.lookup i
    | none => none
  let impressions : ℤ := (mo.map (fun v => v.impressions)).getD 0
  let clicks : ℤ := (mo.map (fun v => v.clicks)).getD 0
  let ctr := if 0 < impressions
    then jsToFixed 2 ((clicks : ℚ) / (impressions : ℚ) * 100) ++ "%"
    else "-"
  let progress := match li.goalUnits with
    | some g =>
        if 0 < g then
          let delivered := if li.goalUnitType = "CLICKS" then clicks else impressions
          jsToFixed 1 ((delivered : ℚ) / (g : ℚ) * 100) ++ "%"
        else "-"
    | none => "-"
  { toLineItemPre := li, impressions := impressions, clicks := clicks,
    ctr := ctr, progress := progress }

/-- The lineItems.forEach metrics join (src/index.js lines 390-400). -/
def joinLineItemMetrics (lineItems : List LineItemPre)
    (metrics : List (String × OrderMetrics)) : List LineItemJoined :=
  lineItems.map (joinLineItem metrics)

/-! ## Inventory aggregation (src/index.js lines 654-692) -/

/-- One bucket of a SizeMetrics map: the three forecast fields or the
historical impressions field, each possibly absent. -/
structure SizeData where
  available : Option ℤ
  forecasted : Option ℤ
  reserved : Option ℤ
  impressions : Option ℤ
deriving DecidableEq

/-- A SizeMetrics map: size token to bucket, in insertion order. -/
abbrev SizeMetrics := List (String × SizeData)

/-- An inventory preset (src/index.js lines 421-439): a null sizeFilter
means match everything. -/
structure Preset where
  label : String
  sizes : List String
  sizeFilter : Option (String → Bool)

/-- preset.sizeFilter === null || preset.sizeFilter(norm). -/
def presetIncludes (p : Preset) (norm : String) : Bool :=
  match p.sizeFilter with
  | none => true
  | some f => f norm

/-- size.replace of every whitespace character with the empty string. -/
def stripWs (s : String) : String :=
  String.mk (s.toList.filter (fun c => !c.isWhitespace))

/-- The accumulators of the aggregation loop (src/index.js lines 665-680). -/
structure AggAcc where
  available : ℤ
  forecasted : ℤ
  reserved : ℤ
  impressions : ℤ
  hasImpressionData : Bool
deriving DecidableEq

/-- One iteration of the aggregation loop body (src/index.js lines
667-680): normalize the size token, test the preset filter, and add the
entry to the impressions accumulator (marking the map historical-shaped)
or to the three forecast accumulators. -/
def aggStep (preset : Preset) (acc : AggAcc) (kv : String × SizeData) : AggAcc :=
  let norm := stripWs kv.1
  if presetIncludes preset norm then
    match kv.2.impressions with
    | some i => { acc with impressions := acc.impressions + i, hasImpressionData := true }
    | none =>
        { acc with
          available := acc.available + kv.2.available.getD 0
          forecasted := acc.forecasted + kv.2.forecasted.getD 0
          reserved := acc.reserved + kv.2.reserved.getD 0 }
  else acc

/-- The full aggregation loop over Object.entries(bySize). -/
def aggLoop (preset : Preset) (bySize : SizeMetrics) : AggAcc :=
  bySize.foldl (aggStep preset) ⟨0, 0, 0, 0, false⟩

/-- The numeric forecasted total a preset aggregates from a map. -/
def forecastedTotal (bySize : SizeMetrics) (preset : Preset) : ℤ :=
  (aggLoop preset bySize).forecasted

/-- The aggregated display row (src/index.js lines 656-663, 682, 685-691).
The impressions-shaped return carries only the impressions field; absent
fields are none. -/
structure AggRow where
  available : Option String
  forecasted : Option String
  reserved : Option String
  str : Option String
  impressions : Option String
deriving DecidableEq

/-- t.forecasted > 0 on a possibly-absent number (absent compares false). -/
def gtZeroOpt : Option ℤ → Bool
  | some v => 0 < v
  | none => false

/-- _aggregateForecastByPreset (src/index.js lines 654-692).  When the
map carries the _total sentinel key its bucket is used directly; otherwise
the loop accumulates the entries the preset filter admits, and the shape
of the result follows whether any included entry carried an impressions
field. -/
def aggregateForecastByPreset (bySize : SizeMetrics) (preset : Preset) : AggRow :=
  match bySize.lookup "_total" with
  | some t =>
      { available := some (toLocaleStringInt ((t.available.orElse (fun _ => t.forecasted)).getD 0))
        forecasted := some (toLocaleStringInt (t.forecasted.getD 0))
        reserved := some (toLocaleStringInt (t.reserved.getD 0))
        str := some (if gtZeroOpt t.forecasted
          then jsToFixed 1 (((t.reserved.getD 0 : ℤ) : ℚ) / ((t.forecasted.getD 0 : ℤ) : ℚ) * 100) ++ "%"
          else "-")
        impressions := some (toLocaleStringInt ((t.forecasted.orElse (fun _ => t.available)).getD 0)) }
  | none =>
      let acc := aggLoop preset bySize
      if acc.hasImpressionData then
        { available := none, forecasted := none, reserved := none, str := none
          impressions := some (toLocaleStringInt acc.impressions) }
      else
        { available := some (toLocaleStringInt acc.available)
          forecasted := some (toLocaleStringInt acc.forecasted)
          reserved := some (toLocaleStringInt acc.reserved)
          str := some (if 0 < acc.forecasted
            then jsToFixed 1 ((acc.reserved : ℚ) / (acc.forecasted : ℚ) * 100) ++ "%"
            else "-")
          impressions := some (toLocaleStringInt acc.impressions) }

/-! ## Forecast source resolver (src/index.js lines 441-604) -/

/-- A forecast source outcome: {data, error}. -/
structure ForecastResult where
  data : Option SizeMetrics
  error : Option String
deriving DecidableEq

/-- The outcome of the structured FUTURE_SELL_THROUGH report attempt
inside _getInventoryForecast: the per-size map it built, the non-throwing
no-result return (src/index.js line 553), or a thrown error. -/
inductive ReportOutcome where
  | ok (bySize : SizeMetrics)
  | noResult
  | thrown (e : JsError)
deriving DecidableEq

/-- _getTrafficDataSoap (src/index.js lines 580-604), as a function of
the outcomes of its remote steps: the access token fetch, the root ad
unit resolution (getRootAdUnitId, which returns a string or null and can
throw), and the getTrafficData total.  A throw anywhere lands in the
catch, which returns err?.message || String(err). -/
def getTrafficDataSoap (token : Except JsError (Option String))
    (rootId : Except JsError (Option String))
    (total : Except JsError ℤ) : ForecastResult :=
  match token with
  | .error e => { data := none, error := jsOrS e.message (some e.asString) }
  | .ok t =>
      if !strTruthy t then { data := none, error := some "No access token" }
      else
        match rootId with
        | .error e => { data := none, error := jsOrS e.message (some e.asString) }
        | .ok r =>
            if !strTruthy r then { data := none, error := some "Could not get root ad unit" }
            else
              match total with
              | .error e => { data := none, error := jsOrS e.message (some e.asString) }
              | .ok totalVal =>
                  { data := some [("_total",
                      { available := some totalVal, forecasted := some totalVal,
                        reserved := some 0, impressions := none })]
                    error := none }

/-- _getInventoryForecast (src/index.js lines 527-578): the structured
report result on success, the fixed message when the run yields no
result, and otherwise the SOAP fallback, whose result is returned when it
carries data and whose error otherwise loses to a non-empty report error
message (v1Err?.message || soapResult.error || String(v1Err)). -/
def getInventoryForecast (report : ReportOutcome) (soapResult : ForecastResult) :
    ForecastResult :=
  match report with
  | .ok bySize => { data := some bySize, error := none }
  | .noResult => { data := none, error := some "Report run returned no result" }
  | .thrown v1Err =>
      match soapResult.data with
      | some _ => soapResult
      | none =>
          { data := none
            error := jsOrS v1Err.message (jsOrS soapResult.error (some v1Err.asString)) }

/-- The data/error selection state getInventory builds (src/index.js
lines 451-470). -/
structure InventorySelection where
  historicalData : Option SizeMetrics
  forecastData : Option SizeMetrics
  historicalErr : Option String
  forecastErr : Option String
  lastError : Option String
deriving DecidableEq

/-- The source-selection logic of getInventory (src/index.js lines
451-470): a future range tries the forecast only, substituting a fixed
hint when it yields no data; a past-or-present range tries the historical
report and falls back to the forecast; lastError is
historicalErr || forecastErr. -/
def getInventoryResolve (isFutureRange : Bool)
    (forecastFut histRes forecastFallback : ForecastResult) : InventorySelection :=
  if isFutureRange then
    match forecastFut.data with
    | some fd =>
        { historicalData := none, forecastData := some fd
          historicalErr := none, forecastErr := forecastFut.error
          lastError := jsOrS none forecastFut.error }
    | none =>
        let he := jsOrS forecastFut.error
          (some "Future forecasting not available (requires Ad Manager 360)")
        { historicalData := none, forecastData := none
          historicalErr := he, forecastErr := forecastFut.error
          lastError := jsOrS he forecastFut.error }
  else
    match histRes.data with
    | some hd =>
        { historicalData := some hd, forecastData := none
          historicalErr := histRes.error, forecastErr := none
          lastError := jsOrS histRes.error none }
    | none =>
        { historicalData := none, forecastData := forecastFallback.data
          historicalErr := histRes.error, forecastErr := forecastFallback.error
          lastError := jsOrS histRes.error forecastFallback.error }

/-! ## parseDate (src/index.js lines 742-758) -/

/-- A calendar date, month 1-12, day 1-based. -/
structure CalendarDate where
  year : ℤ
  month : Nat
  day : Nat
deriving DecidableEq

/-- The Gregorian leap year rule. -/
def isLeapYear (y : ℤ) : Bool :=
  y % 4 = 0 && (y % 100 != 0 || y % 400 = 0)

/-- Days in a month of a given year. -/
def daysInMonth (y : ℤ) (m : Nat) : Nat :=
  match m with
  | 1 => 31
  | 2 => if isLeapYear y then 29 else 28
  | 3 => 31
  | 4 => 30
  | 5 => 31
  | 6 => 30
  | 7 => 31
  | 8 => 31
  | 9 => 30
  | 10 => 31
  | 11 => 30
  | 12 => 31
  | _ => 31

/-- The calendar day after the given one. -/
def nextDay (c : CalendarDate) : CalendarDate :=
  if c.day < daysInMonth c.year c.month then { c with day := c.day + 1 }
  else if c.month < 12 then { c with month := c.month + 1, day := 1 }
  else { year := c.year + 1, month := 1, day := 1 }

/-- The calendar day before the given one. -/
def prevDay (c : CalendarDate) : CalendarDate :=
  if 1 < c.day then { c with day := c.day - 1 }
  else if 1 < c.month then { c with month := c.month - 1, day := daysInMonth c.year (c.month - 1) }
  else { year := c.year - 1, month := 12, day := 31 }

/-- Iterate a step function n times. -/
def iterN (f : CalendarDate → CalendarDate) : Nat → CalendarDate → CalendarDate
  | 0, c => c
  | n + 1, c => iterN f n (f c)

/-- Shift a calendar date by a signed number of days. -/
def addDaysZ (c : CalendarDate) (k : ℤ) : CalendarDate :=
  if k < 0 then iterN prevDay k.natAbs c else iterN nextDay k.toNat c

/-- The calendar date of new Date(y, m, d) under ECMAScript semantics
(local components): years 0-99 map to 1900-1999, the month index is
normalized into the year with floor division, and the day offsets from
the first of that month, rolling over or back as needed. -/
def jsNewDateYMD (y m d : ℤ) : CalendarDate :=
  let y2 := if 0 ≤ y ∧ y ≤ 99 then y + 1900 else y
  let ym := y2 * 12 + m
  let base : CalendarDate := { year := ym.fdiv 12, month := (ym.fmod 12).toNat + 1, day := 1 }
  addDaysZ base (d - 1)

/-- str.trim: strip leading and trailing whitespace. -/
def jsTrim (s : String) : String :=
  String.mk ((s.toList.dropWhile Char.isWhitespace).reverse.dropWhile Char.isWhitespace).reverse

/-- The numeric value of a list of decimal digit characters. -/
def digitsVal (l : List Char) : Nat :=
  l.foldl (fun a c => a * 10 + (c.toNat - 48)) 0

/-- The shape test for the second branch of parseDate, matching the
regular expression for four digits, a dash, two digits, a dash and two
digits. -/
def isIsoShape (l : List Char) : Bool :=
  match l with
  | [y1, y2, y3, y4, h1, m1, m2, h2, d1, d2] =>
      y1.isDigit && y2.isDigit && y3.isDigit && y4.isDigit && h1 = '-' &&
      m1.isDigit && m2.isDigit && h2 = '-' && d1.isDigit && d2.isDigit
  | _ => false

/-- new Date on a string already matched against the date-only ISO
format: the host accepts it exactly when the components form a valid
calendar date, yielding that date (at UTC midnight). -/
def isoParse (l : List Char) : Option CalendarDate :=
  let y := (digitsVal (l.take 4) : ℤ)
  let m := digitsVal (l.drop 5 |>.take 2)
  let d := digitsVal (l.drop 8 |>.take 2)
  if 1 ≤ m ∧ m ≤ 12 ∧ 1 ≤ d ∧ d ≤ daysInMonth y m then
    some { year := y, month := m, day := d }
  else none

/-- parseDate (src/index.js lines 742-758), returning the calendar date
the produced Date object denotes.  An exactly-8-digit trimmed input is
split day-month-year and fed to new Date(yyyy, mm - 1, dd), whose result
is never an invalid date for four-digit year components, so the isNaN
guard of that branch never fires.  A date-only ISO input goes through the
host ISO parser.  Anything else falls back to general new Date parsing,
modelled by the generalParse oracle (none standing for an invalid date). -/
def parseDate (generalParse : String → Option CalendarDate) (str : String) :
    Option CalendarDate :=
  if str = "" then none
  else
    let s := jsTrim str
    let l := s.toList
    if l.length = 8 ∧ l.all Char.isDigit then
      let dd := digitsVal (l.take 2)
      let mm := digitsVal (l.drop 2 |>.take 2)
      let yyyy := digitsVal (l.drop 4)
      some (jsNewDateYMD (yyyy : ℤ) ((mm : ℤ) - 1) (dd : ℤ))
    else if isIsoShape l then isoParse l
    else generalParse s

/-! ## Helper lemmas -/

/-- Evaluation form of jsToFixed for a non-negative argument and a
nonzero digit count, used to compute concrete formatted values. -/
theorem jsToFixed_nonneg_eval (digits : Nat) (x : ℚ) (n : ℤ)
    (hx : 0 ≤ x) (hn : ⌊x * (10 : ℚ) ^ digits + 1 / 2⌋ = n) (hd : digits ≠ 0) :
    jsToFixed digits x =
      "" ++ toString (n.toNat / 10 ^ digits) ++
        ("." ++ padZeros digits (toString (n.toNat % 10 ^ digits))) := by
  simp only [jsToFixed]
  rw [if_neg (not_lt.mpr hx), abs_of_nonneg hx, hn, if_neg hd]

/-- A percent-suffixed string is never the placeholder. -/
theorem append_percent_ne_dash (s : String) : s ++ "%" ≠ "-" := by
  intro h
  have h2 : (s ++ "%").data = "-".data := by rw [h]
  rw [String.data_append] at h2
  rcases hs : s.data with _ | ⟨c, cs⟩
  · rw [hs] at h2
    simp at h2
  · rw [hs] at h2
    have := congrArg List.length h2
    simp at this

/-- The forecasted accumulator of the aggregation loop is its initial
value plus the forecasted contributions of the included forecast-shaped
entries. -/
theorem foldl_aggStep_forecasted (p : Preset) (m : SizeMetrics) (acc : AggAcc) :
    (m.foldl (aggStep p) acc).forecasted =
      acc.forecasted + (m.map (fun kv =>
        if presetIncludes p (stripWs kv.1) && (kv.2).impressions.isNone
        then (kv.2).forecasted.getD 0 else 0)).sum := by
  induction m generalizing acc with
  | nil => simp
  | cons kv rest ih =>
      rw [List.foldl_cons, ih, List.map_cons, List.sum_cons]
      unfold aggStep
      rcases h : kv.2.impressions with _ | i <;>
        rcases hp : presetIncludes p (stripWs kv.1) <;>
          (simp [h, hp]; try ring)

/-- The historical-shape flag of the aggregation loop never rises on a
map whose entries all lack the impressions field. -/
theorem foldl_aggStep_hasImpressionData (p : Preset) (m : SizeMetrics) (acc : AggAcc)
    (h : ∀ kv ∈ m, (kv.2).impressions = none) :
    (m.foldl (aggStep p) acc).hasImpressionData = acc.hasImpressionData := by
  induction m generalizing acc with
  | nil => simp
  | cons kv rest ih =>
      rw [List.foldl_cons, ih _ (fun x hx => h x (List.mem_cons_of_mem _ hx))]
      have hk := h kv (List.mem_cons_self _ _)
      unfold aggStep
      rcases hp : presetIncludes p (stripWs kv.1) <;> simp [hk, hp]

/-- Pointwise-equal functions give equal map sums. -/
theorem sum_map_congr {β : Type} (m : List β) (f g : β → ℤ)
    (h : ∀ kv ∈ m, f kv = g kv) : (m.map f).sum = (m.map g).sum := by
  induction m with
  | nil => rfl
  | cons kv rest ih =>
      simp [h kv (List.mem_cons_self _ _),
        ih (fun x hx => h x (List.mem_cons_of_mem _ hx))]

/-- A map sum of a pointwise sum splits. -/
theorem sum_map_add_split {β : Type} (m : List β) (f g : β → ℤ) :
    (m.map (fun kv => f kv + g kv)).sum = (m.map f).sum + (m.map g).sum := by
  induction m with
  | nil => simp
  | cons kv rest ih =>
      simp only [List.map_cons, List.sum_cons, ih]
      ring

/-- Two nested map sums commute. -/
theorem sum_map_sum_comm {α β : Type} (ps : List α) (m : List β) (g : α → β → ℤ) :
    (ps.map (fun p => (m.map (g p)).sum)).sum =
      (m.map (fun kv => (ps.map (fun p => g p kv)).sum)).sum := by
  induction ps with
  | nil => simp [List.map_const]
  | cons p rest ih =>
      simp only [List.map_cons, List.sum_cons, ih]
      rw [← sum_map_add_split]

/-- When exactly one preset of a pairwise-disjoint family admits a
token, the indicator sum over the family collapses to the single value. -/
theorem sum_single_includer (s : String) (v : ℤ) (ps : List Preset)
    (hcov : ∃ p ∈ ps, presetIncludes p s = true)
    (hdisj : ps.Pairwise (fun p q => ∀ t, ¬(presetIncludes p t = true ∧ presetIncludes q t = true))) :
    (ps.map (fun p => if presetIncludes p s then v else 0)).sum = v := by
  induction ps with
  | nil =>
      rcases hcov with ⟨p, hp, _⟩
      cases hp
  | cons p rest ih =>
      rw [List.pairwise_cons] at hdisj
      rcases hdisj with ⟨hd, hrest⟩
      rcases hp : presetIncludes p s with _ | _
      · rcases hcov with ⟨q, hq, hqs⟩
        rcases List.mem_cons.mp hq with rfl | hq2
        · rw [hp] at hqs
          cases hqs
        · simp only [List.map_cons, List.sum_cons, hp, if_false, Bool.false_eq_true]
          rw [ih ⟨q, hq2, hqs⟩ hrest]
          simp
      · have hzero : (rest.map (fun q => if presetIncludes q s then v else 0)).sum = 0 := by
          apply List.sum_eq_zero
          intro x hx
          rcases List.mem_map.mp hx with ⟨q, hq, rfl⟩
          have := hd q hq s
          rcases hqs : presetIncludes q s with _ | _
          · simp
          · exact absurd ⟨hp, hqs⟩ this
        simp [hp, hzero]

/-! ## Claim theorems -/

/-- C5: for every SizeMetrics map whose only key is the _total sentinel
and every preset, including presets whose sizeFilter would reject every
token, the aggregator ignores the filter and returns the bucket's
available, forecasted and reserved values verbatim, locale-formatted. -/
theorem c5_total_sentinel (t : SizeData) (p q : Preset) (a f r : ℤ)
    (ha : t.available = some a) (hf : t.forecasted = some f) (hr : t.reserved = some r) :
    (aggregateForecastByPreset [("_total", t)] p).available = some (toLocaleStringInt a)
  ∧ (aggregateForecastByPreset [("_total", t)] p).forecasted = some (toLocaleStringInt f)
  ∧ (aggregateForecastByPreset [("_total", t)] p).reserved = some (toLocaleStringInt r)
  ∧ aggregateForecastByPreset [("_total", t)] p = aggregateForecastByPreset [("_total", t)] q := by
  refine ⟨?_, ?_, ?_, ?_⟩ <;>
    simp [aggregateForecastByPreset, List.lookup, ha, hf, hr, Option.orElse]

/-- Witness for C5 at a concrete bucket and two concrete presets. -/
theorem c5_total_sentinel_witness :
    (aggregateForecastByPreset [("_total", ⟨some 5, some 7, some 3, none⟩)]
        ⟨"Run of site (all sites)", ["All"], none⟩).available = some (toLocaleStringInt 5)
  ∧ (aggregateForecastByPreset [("_total", ⟨some 5, some 7, some 3, none⟩)]
        ⟨"Run of site (all sites)", ["All"], none⟩).forecasted = some (toLocaleStringInt 7)
  ∧ (aggregateForecastByPreset [("_total", ⟨some 5, some 7, some 3, none⟩)]
        ⟨"Run of site (all sites)", ["All"], none⟩).reserved = some (toLocaleStringInt 3)
  ∧ aggregateForecastByPreset [("_total", ⟨some 5, some 7, some 3, none⟩)]
        ⟨"Run of site (all sites)", ["All"], none⟩ =
      aggregateForecastByPreset [("_total", ⟨some 5, some 7, some 3, none⟩)]
        ⟨"Desktop banners", [], some (fun _ => false)⟩ :=
  c5_total_sentinel ⟨some 5, some 7, some 3, none⟩
    ⟨"Run of site (all sites)", ["All"], none⟩
    ⟨"Desktop banners", [], some (fun _ => false)⟩ 5 7 3 rfl rfl rfl

/-- C2: when the structured FUTURE_SELL_THROUGH report attempt throws
and the legacy SOAP pipeline succeeds end to end with total T, the
forecast resolver returns the single _total bucket with forecasted = T,
available = T, reserved = 0 and a null error. -/
theorem c2_soap_fallback (e : JsError) (tok rid : String) (total : ℤ)
    (htok : tok ≠ "") (hrid : rid ≠ "") :
    getInventoryForecast (.thrown e)
      (getTrafficDataSoap (.ok (some tok)) (.ok (some rid)) (.ok total)) =
    { data := some [("_total",
        { available := some total, forecasted := some total,
          reserved := some 0, impressions := none })]
      error := none } := by
  simp [getTrafficDataSoap, getInventoryForecast, strTruthy, htok, hrid]

/-- Witness for C2 at total 12345. -/
theorem c2_soap_fallback_witness :
    getInventoryForecast (.thrown ⟨some "report failed", "Error: report failed"⟩)
      (getTrafficDataSoap (.ok (some "tok")) (.ok (some "123")) (.ok 12345)) =
    { data := some [("_total",
        { available := some 12345, forecasted := some 12345,
          reserved := some 0, impressions := none })]
      error := none } :=
  c2_soap_fallback ⟨some "report failed", "Error: report failed"⟩ "tok" "123" 12345
    (by decide) (by decide)

/-- C3: when several forecast sources fail, the earliest attempted
source's non-empty message is surfaced, the later source's message being
used only when the earlier one is empty or absent: on the
past-or-present path the historical error wins over the fallback
forecast error, and inside the forecast resolver the thrown report
error's message wins over the SOAP error. -/
theorem c3_error_precedence :
    (∀ (ff h f2 : ForecastResult) (he : String), h.data = none → h.error = some he → he ≠ "" →
      (getInventoryResolve false ff h f2).lastError = some he)
  ∧ (∀ (ff h f2 : ForecastResult), h.data = none → (h.error = none ∨ h.error = some "") →
      (getInventoryResolve false ff h f2).lastError = f2.error)
  ∧ (∀ (e : JsError) (soap : ForecastResult) (msg : String), soap.data = none →
      e.message = some msg → msg ≠ "" →
      getInventoryForecast (.thrown e) soap = { data := none, error := some msg })
  ∧ (∀ (e : JsError) (soap : ForecastResult) (se : String), soap.data = none →
      (e.message = none ∨ e.message = some "") → soap.error = some se → se ≠ "" →
      getInventoryForecast (.thrown e) soap = { data := none, error := some se }) := by
  refine ⟨?_, ?_, ?_, ?_⟩
  · intro ff h f2 he hdata herr hne
    simp [getInventoryResolve, hdata, herr, jsOrS, hne]
  · intro ff h f2 hdata herr
    rcases herr with herr | herr
    · simp [getInventoryResolve, hdata, herr, jsOrS]
    · simp [getInventoryResolve, hdata, herr, jsOrS]
  · intro e soap msg hdata hmsg hne
    simp [getInventoryForecast, hdata, hmsg, jsOrS, hne]
  · intro e soap se hdata hmsg hserr hne
    rcases hmsg with hmsg | hmsg
    · simp [getInventoryForecast, hdata, hmsg, hserr, jsOrS, hne]
    · simp [getInventoryForecast, hdata, hmsg, hserr, jsOrS, hne]

/-- Witness for C3 at concrete error strings. -/
theorem c3_error_precedence_witness :
    (getInventoryResolve false ⟨none, none⟩ ⟨none, some "hist failed"⟩
        ⟨none, some "fc failed"⟩).lastError = some "hist failed"
  ∧ (getInventoryResolve false ⟨none, none⟩ ⟨none, none⟩
        ⟨none, some "fc failed"⟩).lastError = (⟨none, some "fc failed"⟩ : ForecastResult).error
  ∧ getInventoryForecast (.thrown ⟨some "v1 failed", "Error: v1 failed"⟩)
        ⟨none, some "soap failed"⟩ = { data := none, error := some "v1 failed" }
  ∧ getInventoryForecast (.thrown ⟨none, "Error"⟩)
        ⟨none, some "soap failed"⟩ = { data := none, error := some "soap failed" } :=
  ⟨c3_error_precedence.1 ⟨none, none⟩ ⟨none, some "hist failed"⟩ ⟨none, some "fc failed"⟩
      "hist failed" rfl rfl (by decide),
   c3_error_precedence.2.1 ⟨none, none⟩ ⟨none, none⟩ ⟨none, some "fc failed"⟩ rfl (Or.inl rfl),
   c3_error_precedence.2.2.1 ⟨some "v1 failed", "Error: v1 failed"⟩ ⟨none, some "soap failed"⟩
      "v1 failed" rfl rfl (by decide),
   c3_error_precedence.2.2.2 ⟨none, "Error"⟩ ⟨none, some "soap failed"⟩
      "soap failed" rfl (Or.inl rfl) rfl (by decide)⟩

/-- C4: a thrown metrics report call is caught and becomes the empty
mapping, the join still returns every order record (the non-metrics
fields unchanged), and any order id absent from the mapping gets zero
impressions and clicks. -/
theorem c4_metrics_failure (ids : List String) (e : JsError)
    (orders : List OrderRecordPre) (lc : List (String × Nat))
    (metrics : List (String × OrderMetrics)) :
    getOrderMetrics ids (.error e) = []
  ∧ (joinOrderMetrics orders lc metrics).map (fun r => r.toOrderRecordPre) = orders
  ∧ (∀ o ∈ joinOrderMetrics orders lc (getOrderMetrics ids (.error e)),
      o.impressions = 0 ∧ o.clicks = 0)
  ∧ (∀ o : OrderRecordPre,
      (match o.id with | some i => metrics.lookup i | none => none) = (none : Option OrderMetrics) →
      (enrichOrder lc metrics o).impressions = 0 ∧ (enrichOrder lc metrics o).clicks = 0) := by
  refine ⟨?_, ?_, ?_, ?_⟩
  · cases ids <;> simp [getOrderMetrics]
  · simp only [joinOrderMetrics, List.map_map]
    have : ((fun r : OrderRecord => r.toOrderRecordPre) ∘ enrichOrder lc metrics) = id := by
      funext o
      rfl
    rw [this, List.map_id]
  · intro o ho
    have hempty : getOrderMetrics ids (.error e) = [] := by
      cases ids <;> simp [getOrderMetrics]
    rw [hempty] at ho
    rcases List.mem_map.mp ho with ⟨o0, _, rfl⟩
    cases h : o0.id <;> simp [enrichOrder, h, List.lookup]
  · intro o h
    cases hid : o.id with
    | none => simp [enrichOrder, hid]
    | some i =>
        rw [hid] at h
        have h2 : List.lookup i metrics = none := h
        simp [enrichOrder, hid, h2]

/-- Witness for C4 at a concrete order, id list and thrown error. -/
theorem c4_metrics_failure_witness :
    getOrderMetrics ["1001"] (.error ⟨some "report error", "Error: report error"⟩) = []
  ∧ (joinOrderMetrics [⟨some "1001", "Order A", .s "APPROVED", "2026-01-01", "Ongoing", "USD", "42"⟩]
        [] []).map (fun r => r.toOrderRecordPre) =
      [⟨some "1001", "Order A", .s "APPROVED", "2026-01-01", "Ongoing", "USD", "42"⟩]
  ∧ ((enrichOrder [] [] ⟨some "1001", "Order A", .s "APPROVED", "2026-01-01", "Ongoing", "USD", "42"⟩).impressions = 0
     ∧ (enrichOrder [] [] ⟨some "1001", "Order A", .s "APPROVED", "2026-01-01", "Ongoing", "USD", "42"⟩).clicks = 0) :=
  ⟨(c4_metrics_failure ["1001"] ⟨some "report error", "Error: report error"⟩ [] [] []).1,
   (c4_metrics_failure [] ⟨some "report error", "Error: report error"⟩
      [⟨some "1001", "Order A", .s "APPROVED", "2026-01-01", "Ongoing", "USD", "42"⟩] [] []).2.1,
   (c4_metrics_failure [] ⟨some "report error", "Error: report error"⟩ [] [] []).2.2.2
      ⟨some "1001", "Order A", .s "APPROVED", "2026-01-01", "Ongoing", "USD", "42"⟩ (by decide)⟩

/-- C7 counterexample: on a forecast-shaped map whose single entry has
forecasted = -1 the aggregated forecasted total is nonzero, yet the str
field is the placeholder, refuting the placeholder-iff-zero claim. -/
theorem c7_str_counterexample :
    (aggregateForecastByPreset [("300x250", ⟨some 0, some (-1), some 0, none⟩)]
        ⟨"Run of site (all sites)", ["All"], none⟩).str = some "-"
  ∧ (aggLoop ⟨"Run of site (all sites)", ["All"], none⟩
        [("300x250", ⟨some 0, some (-1), some 0, none⟩)]).forecasted ≠ 0 := by
  decide

/-- C7 amended: on a forecast-shaped map without the _total key, str is
the placeholder iff the aggregated forecasted total is not positive;
when the total is positive it is the reserved/forecasted ratio times
100, rounded to one decimal with a percent suffix; and when every entry
is non-negative the placeholder condition coincides with the total being
exactly zero, as the claim stated. -/
theorem c7_str_amended (m : SizeMetrics) (p : Preset)
    (hTotal : m.lookup "_total" = none)
    (hShape : ∀ kv ∈ m, (kv.2).impressions = none) :
    ((aggregateForecastByPreset m p).str = some "-" ↔ (aggLoop p m).forecasted ≤ 0)
  ∧ (0 < (aggLoop p m).forecasted →
      (aggregateForecastByPreset m p).str =
        some (jsToFixed 1 (((aggLoop p m).reserved : ℚ) / ((aggLoop p m).forecasted : ℚ) * 100) ++ "%"))
  ∧ ((∀ kv ∈ m, 0 ≤ (kv.2).forecasted.getD 0) →
      ((aggregateForecastByPreset m p).str = some "-" ↔ (aggLoop p m).forecasted = 0)) := by
  have hImp : (aggLoop p m).hasImpressionData = false :=
    foldl_aggStep_hasImpressionData p m _ hShape
  have hAgg : (aggregateForecastByPreset m p).str =
      some (if 0 < (aggLoop p m).forecasted
        then jsToFixed 1 (((aggLoop p m).reserved : ℚ) / ((aggLoop p m).forecasted : ℚ) * 100) ++ "%"
        else "-") := by
    unfold aggregateForecastByPreset
    rw [hTotal]
    simp [hImp]
  have hiff : (aggregateForecastByPreset m p).str = some "-" ↔ (aggLoop p m).forecasted ≤ 0 := by
    rw [hAgg]
    by_cases hf : 0 < (aggLoop p m).forecasted
    · have hne := append_percent_ne_dash
        (jsToFixed 1 (((aggLoop p m).reserved : ℚ) / ((aggLoop p m).forecasted : ℚ) * 100))
      rw [if_pos hf]
      simp only [Option.some.injEq]
      constructor
      · intro hcontr
        exact absurd hcontr hne
      · intro hcontr
        exfalso
        omega
    · rw [if_neg hf]
      simp only [Option.some.injEq]
      constructor
      · intro _
        omega
      · intro _
        trivial
  refine ⟨hiff, ?_, ?_⟩
  · intro hf
    rw [hAgg]
    simp [hf]
  · intro hnn
    have hsum : (aggLoop p m).forecasted = (m.map (fun kv =>
        if presetIncludes p (stripWs kv.1) && (kv.2).impressions.isNone
        then (kv.2).forecasted.getD 0 else 0)).sum := by
      unfold aggLoop
      rw [foldl_aggStep_forecasted]
      simp [aggLoop]
    have h0 : 0 ≤ (aggLoop p m).forecasted := by
      rw [hsum]
      apply List.sum_nonneg
      intro x hx
      rcases List.mem_map.mp hx with ⟨kv, hkv, rfl⟩
      by_cases hc : (presetIncludes p (stripWs kv.1) && (kv.2).impressions.isNone) = true
      · rw [if_pos hc]
        exact hnn kv hkv
      · rw [if_neg hc]
    rw [hiff]
    omega

/-- Witness for C7 at a concrete map with a positive forecasted total. -/
theorem c7_str_amended_witness :
    ((aggregateForecastByPreset [("300x250", ⟨some 1, some 4, some 1, none⟩)]
        ⟨"Run of site (all sites)", ["All"], none⟩).str = some "-" ↔
      (aggLoop ⟨"Run of site (all sites)", ["All"], none⟩
        [("300x250", ⟨some 1, some 4, some 1, none⟩)]).forecasted ≤ 0)
  ∧ (0 < (aggLoop ⟨"Run of site (all sites)", ["All"], none⟩
        [("300x250", ⟨some 1, some 4, some 1, none⟩)]).forecasted →
      (aggregateForecastByPreset [("300x250", ⟨some 1, some 4, some 1, none⟩)]
        ⟨"Run of site (all sites)", ["All"], none⟩).str =
      some (jsToFixed 1
        (((aggLoop ⟨"Run of site (all sites)", ["All"], none⟩
            [("300x250", ⟨some 1, some 4, some 1, none⟩)]).reserved : ℚ) /
         ((aggLoop ⟨"Run of site (all sites)", ["All"], none⟩
            [("300x250", ⟨some 1, some 4, some 1, none⟩)]).forecasted : ℚ) * 100) ++ "%"))
  ∧ ((∀ kv ∈ [("300x250", (⟨some 1, some 4, some 1, none⟩ : SizeData))],
        0 ≤ (kv.2).forecasted.getD 0) →
      ((aggregateForecastByPreset [("300x250", ⟨some 1, some 4, some 1, none⟩)]
          ⟨"Run of site (all sites)", ["All"], none⟩).str = some "-" ↔
        (aggLoop ⟨"Run of site (all sites)", ["All"], none⟩
          [("300x250", ⟨some 1, some 4, some 1, none⟩)]).forecasted = 0)) :=
  c7_str_amended [("300x250", ⟨some 1, some 4, some 1, none⟩)]
    ⟨"Run of site (all sites)", ["All"], none⟩ (by decide) (by decide)

/-- C6: on a forecast-shaped map without the _total key, a family of
presets with pairwise disjoint filters that jointly cover all normalized
keys partitions the forecasted mass: the preset totals sum to the sum of
forecasted over all entries. -/
theorem c6_partition (m : SizeMetrics) (ps : List Preset)
    (_hTotal : m.lookup "_total" = none)
    (hShape : ∀ kv ∈ m, (kv.2).impressions = none)
    (hDisj : ps.Pairwise (fun p q => ∀ s, ¬(presetIncludes p s = true ∧ presetIncludes q s = true)))
    (hCover : ∀ kv ∈ m, ∃ p ∈ ps, presetIncludes p (stripWs kv.1) = true) :
    (ps.map (fun p => forecastedTotal m p)).sum =
      (m.map (fun kv => (kv.2).forecasted.getD 0)).sum := by
  have h1 : ∀ p : Preset, forecastedTotal m p = (m.map (fun kv =>
      if presetIncludes p (stripWs kv.1) && (kv.2).impressions.isNone
      then (kv.2).forecasted.getD 0 else 0)).sum := by
    intro p
    unfold forecastedTotal aggLoop
    rw [foldl_aggStep_forecasted]
    simp
  calc (ps.map (fun p => forecastedTotal m p)).sum
      = (ps.map (fun p => (m.map (fun kv =>
          if presetIncludes p (stripWs kv.1) && (kv.2).impressions.isNone
          then (kv.2).forecasted.getD 0 else 0)).sum)).sum :=
        sum_map_congr ps _ _ (fun p _ => h1 p)
    _ = (m.map (fun kv => (ps.map (fun p =>
          if presetIncludes p (stripWs kv.1) && (kv.2).impressions.isNone
          then (kv.2).forecasted.getD 0 else 0)).sum)).sum :=
        sum_map_sum_comm ps m _
    _ = (m.map (fun kv => (kv.2).forecasted.getD 0)).sum := by
        apply sum_map_congr
        intro kv hkv
        have hi := hShape kv hkv
        have hcond : ∀ p : Preset,
            (if presetIncludes p (stripWs kv.1) && (kv.2).impressions.isNone
              then (kv.2).forecasted.getD 0 else 0) =
            (if presetIncludes p (stripWs kv.1) then (kv.2).forecasted.getD 0 else 0) := by
          intro p
          rw [hi]
          simp
        rw [sum_map_congr ps _ _ (fun p _ => hcond p)]
        exact sum_single_includer (stripWs kv.1) _ ps (hCover kv hkv) hDisj

/-- Witness for C6 at a concrete two-entry map and two disjoint presets. -/
theorem c6_partition_witness :
    (([⟨"Desktop", [], some (fun s => s == "300x250")⟩,
       ⟨"Mobile", [], some (fun s => s == "728x90")⟩] : List Preset).map
      (fun p => forecastedTotal
        [("300x250", ⟨some 1, some 10, some 2, none⟩),
         ("728 x 90", ⟨some 3, some 20, some 4, none⟩)] p)).sum =
    (([("300x250", (⟨some 1, some 10, some 2, none⟩ : SizeData)),
       ("728 x 90", ⟨some 3, some 20, some 4, none⟩)]).map
      (fun kv => (kv.2).forecasted.getD 0)).sum :=
  c6_partition
    [("300x250", ⟨some 1, some 10, some 2, none⟩),
     ("728 x 90", ⟨some 3, some 20, some 4, none⟩)]
    [⟨"Desktop", [], some (fun s => s == "300x250")⟩,
     ⟨"Mobile", [], some (fun s => s == "728x90")⟩]
    (by decide) (by decide)
    (by
      constructor
      · intro q hq s hs
        rcases List.mem_singleton.mp hq with rfl
        rcases hs with ⟨h1, h2⟩
        have e1 : s = "300x250" := by simpa [presetIncludes] using h1
        have e2 : s = "728x90" := by simpa [presetIncludes] using h2
        rw [e1] at e2
        exact absurd e2 (by decide)
      · simp)
    (by decide)

/-- C10 counterexample: at the claim's own example (impressions 200,
clicks 10) the produced ctr is "5.00%", which is not the one-decimal
percent formatting of clicks/impressions*100 the claim also asserts:
ctr is formatted to two decimal places, not one. -/
theorem c10_ctr_counterexample :
    (joinLineItem [("1", ⟨200, 10⟩)] ⟨some "1", none, "SOME_TYPE"⟩).ctr = "5.00%"
  ∧ (joinLineItem [("1", ⟨200, 10⟩)] ⟨some "1", none, "SOME_TYPE"⟩).ctr ≠
      jsToFixed 1 ((10 : ℚ) / 200 * 100) ++ "%" := by
  have h2 : jsToFixed 2 (5 : ℚ) = "5.00" := by
    rw [jsToFixed_nonneg_eval 2 5 500 (by norm_num) (by norm_num) (by decide)]
    decide
  have h1 : jsToFixed 1 ((10 : ℚ) / 200 * 100) = "5.0" := by
    have hv : ((10 : ℚ) / 200 * 100) = 5 := by norm_num
    rw [hv, jsToFixed_nonneg_eval 1 5 50 (by norm_num) (by norm_num) (by decide)]
    decide
  have hctr : (joinLineItem [("1", ⟨200, 10⟩)] ⟨some "1", none, "SOME_TYPE"⟩).ctr
      = jsToFixed 2 (5 : ℚ) ++ "%" := by
    simp only [joinLineItem, List.lookup]
    norm_num
  rw [hctr, h2, h1]
  exact ⟨rfl, by decide⟩

/-- C10 amended: after the metrics join, ctr is clicks/impressions*100
formatted to two decimal places with a percent suffix when impressions
is positive and the placeholder when impressions is zero; progress is
delivered/goalUnits*100 to one decimal place with a percent suffix when
goalUnits is present and positive and the placeholder otherwise, with
delivered being clicks for the CLICKS goal type and impressions
otherwise; the claim's concrete instances evaluate as stated. -/
theorem c10_ctr_progress_amended (metrics : List (String × OrderMetrics)) (li : LineItemPre) :
    (0 < (joinLineItem metrics li).impressions →
      (joinLineItem metrics li).ctr =
        jsToFixed 2 (((joinLineItem metrics li).clicks : ℚ) /
          ((joinLineItem metrics li).impressions : ℚ) * 100) ++ "%")
  ∧ ((joinLineItem metrics li).impressions = 0 → (joinLineItem metrics li).ctr = "-")
  ∧ (∀ g : ℤ, li.goalUnits = some g → 0 < g →
      (joinLineItem metrics li).progress =
        jsToFixed 1 (((if li.goalUnitType = "CLICKS" then (joinLineItem metrics li).clicks
            else (joinLineItem metrics li).impressions) : ℚ) / (g : ℚ) * 100) ++ "%")
  ∧ (li.goalUnits = none → (joinLineItem metrics li).progress = "-")
  ∧ (∀ g : ℤ, li.goalUnits = some g → g ≤ 0 → (joinLineItem metrics li).progress = "-")
  ∧ (joinLineItem [("1", ⟨200, 10⟩)] ⟨some "1", some 1000, "CLICKS"⟩).ctr = "5.00%"
  ∧ (joinLineItem [("1", ⟨200, 10⟩)] ⟨some "1", some 1000, "CLICKS"⟩).progress = "1.0%"
  ∧ (joinLineItem [("1", ⟨200, 10⟩)] ⟨some "1", none, "CLICKS"⟩).progress = "-" := by
  refine ⟨?_, ?_, ?_, ?_, ?_, ?_, ?_, by decide⟩
  · intro h
    simp only [joinLineItem] at h ⊢
    rw [if_pos h]
  · intro h
    simp only [joinLineItem] at h ⊢
    rw [h]
    rw [if_neg (by omega)]
  · intro g hg hpos
    simp only [joinLineItem, hg] at *
    rw [if_pos hpos, apply_ite (fun z : ℤ => (z : ℚ))]
  · intro h
    simp only [joinLineItem, h]
  · intro g hg hnonpos
    simp only [joinLineItem, hg]
    rw [if_neg (by omega)]
  · have h2 : jsToFixed 2 (5 : ℚ) = "5.00" := by
      rw [jsToFixed_nonneg_eval 2 5 500 (by norm_num) (by norm_num) (by decide)]
      decide
    have hctr : (joinLineItem [("1", ⟨200, 10⟩)] ⟨some "1", some 1000, "CLICKS"⟩).ctr
        = jsToFixed 2 (5 : ℚ) ++ "%" := by
      simp [joinLineItem, List.lookup]
      norm_num
    rw [hctr, h2]
    decide
  · have h1 : jsToFixed 1 (1 : ℚ) = "1.0" := by
      rw [jsToFixed_nonneg_eval 1 1 10 (by norm_num) (by norm_num) (by decide)]
      decide
    have hprog : (joinLineItem [("1", ⟨200, 10⟩)] ⟨some "1", some 1000, "CLICKS"⟩).progress
        = jsToFixed 1 (1 : ℚ) ++ "%" := by
      simp [joinLineItem, List.lookup]
      norm_num
    rw [hprog, h1]
    decide

/-- Witness for C10 at concrete metrics and goal values. -/
theorem c10_ctr_progress_amended_witness :
    (joinLineItem [("7", ⟨400, 30⟩)] ⟨some "7", some 2000, "IMPRESSIONS"⟩).ctr =
      jsToFixed 2 (((joinLineItem [("7", ⟨400, 30⟩)] ⟨some "7", some 2000, "IMPRESSIONS"⟩).clicks : ℚ) /
        ((joinLineItem [("7", ⟨400, 30⟩)] ⟨some "7", some 2000, "IMPRESSIONS"⟩).impressions : ℚ) * 100) ++ "%"
  ∧ (joinLineItem [("7", ⟨400, 30⟩)] ⟨some "7", some 2000, "IMPRESSIONS"⟩).progress =
      jsToFixed 1 (((if ("IMPRESSIONS" : String) = "CLICKS"
          then (joinLineItem [("7", ⟨400, 30⟩)] ⟨some "7", some 2000, "IMPRESSIONS"⟩).clicks
          else (joinLineItem [("7", ⟨400, 30⟩)] ⟨some "7", some 2000, "IMPRESSIONS"⟩).impressions) : ℚ) /
        ((2000 : ℤ) : ℚ) * 100) ++ "%" :=
  ⟨(c10_ctr_progress_amended [("7", ⟨400, 30⟩)] ⟨some "7", some 2000, "IMPRESSIONS"⟩).1 (by decide),
   (c10_ctr_progress_amended [("7", ⟨400, 30⟩)] ⟨some "7", some 2000, "IMPRESSIONS"⟩).2.2.1
      2000 rfl (by decide)⟩

/-- C9 counterexample: a truthy string the host cannot parse yields NaN
(a number value), not null, refuting the claim that parse failure gives
null. -/
theorem c9_parseTime_counterexample :
    parseTime (fun _ => JsNum.nan) (TimeInput.str "not-a-date") = some JsNum.nan
  ∧ parseTime (fun _ => JsNum.nan) (TimeInput.str "not-a-date") ≠ none := by
  decide

/-- C9 amended: the timestamp normalizer returns new Date(s).getTime()
for every truthy string (an epoch-millisecond number when the host can
parse it, NaN rather than null when it cannot), the seconds*1000 +
nanos/1e6 formula for an object carrying a seconds field under either
naming convention, and null for falsy inputs, objects without a seconds
field, and other truthy non-string non-object values; it is total, so it
never raises. -/
theorem c9_parseTime_amended (dateParse : String → JsNum) :
    (∀ s q, dateParse s = JsNum.num q → parseTime dateParse (.str s) = some (JsNum.num q))
  ∧ (∀ s, dateParse s = JsNum.nan →
      parseTime dateParse (.str s) = some JsNum.nan ∧ parseTime dateParse (.str s) ≠ none)
  ∧ (∀ o : TimeObj, ∀ sec, o.seconds.orElse (fun _ => o.secondsAlt) = some sec →
      parseTime dateParse (.obj o) = some (.num (jsOrZero sec * 1000 +
        jsOrZero ((o.nanos.orElse (fun _ => o.nanosAlt)).getD (.num 0)) / 1000000)))
  ∧ (∀ o : TimeObj, o.seconds.orElse (fun _ => o.secondsAlt) = none →
      parseTime dateParse (.obj o) = none)
  ∧ parseTime dateParse .falsy = none
  ∧ parseTime dateParse .otherTruthy = none := by
  refine ⟨?_, ?_, ?_, ?_, rfl, rfl⟩
  · intro s q h
    simp [parseTime, h]
  · intro s h
    simp [parseTime, h]
  · intro o sec h
    simp [parseTime, h]
  · intro o h
    simp [parseTime, h]

/-- Witness for C9 at a parseable string, an unparseable string and two
concrete objects. -/
theorem c9_parseTime_amended_witness :
    parseTime (fun s => if s = "2026-02-24" then JsNum.num 1771891200000 else JsNum.nan)
      (.str "2026-02-24") = some (JsNum.num 1771891200000)
  ∧ (parseTime (fun s => if s = "2026-02-24" then JsNum.num 1771891200000 else JsNum.nan)
        (.str "never-a-date") = some JsNum.nan
     ∧ parseTime (fun s => if s = "2026-02-24" then JsNum.num 1771891200000 else JsNum.nan)
        (.str "never-a-date") ≠ none)
  ∧ parseTime (fun s => if s = "2026-02-24" then JsNum.num 1771891200000 else JsNum.nan)
      (.obj ⟨some (JsNum.num 1700000000), none, none, some (JsNum.num 500000)⟩) =
      some (.num (jsOrZero (JsNum.num 1700000000) * 1000 +
        jsOrZero (((some (JsNum.num 500000) : Option JsNum)).getD (.num 0)) / 1000000))
  ∧ parseTime (fun s => if s = "2026-02-24" then JsNum.num 1771891200000 else JsNum.nan)
      (.obj ⟨none, none, some (JsNum.num 7), none⟩) = none :=
  ⟨(c9_parseTime_amended _).1 "2026-02-24" 1771891200000 (by decide),
   (c9_parseTime_amended _).2.1 "never-a-date" (by decide),
   (c9_parseTime_amended _).2.2.1 ⟨some (JsNum.num 1700000000), none, none, some (JsNum.num 500000)⟩
      (JsNum.num 1700000000) rfl,
   (c9_parseTime_amended _).2.2.2.1 ⟨none, none, some (JsNum.num 7), none⟩ rfl⟩

set_option maxRecDepth 8000 in
/-- C8 counterexample: the 8-digit input "32012026" denotes day 32 of
January 2026, which is not a valid calendar date, yet parseDate returns
the rolled-over date 2026-02-01 rather than null, refuting the claim
that the result is null whenever the input does not denote a valid
calendar date. -/
theorem c8_parseDate_counterexample :
    parseDate (fun _ => none) "32012026" = some ⟨2026, 2, 1⟩
  ∧ daysInMonth 2026 1 < 32 := by
  decide

set_option maxRecDepth 8000 in
/-- C8 amended: an exactly-8-digit string is interpreted day-first as
DDMMYYYY under new Date(y, m, d) semantics, so "24022026" is 2026-02-24
and "05042026" is April 5 (never May 4); a YYYY-MM-DD string yields the
same calendar date; other text falls back to general parsing, so
"not-a-date" yields null; but out-of-range 8-digit components roll over
to an adjacent date ("32012026" gives 2026-02-01) instead of yielding
null, and the 8-digit branch never returns null. -/
theorem c8_parseDate_amended (g : String → Option CalendarDate) :
    parseDate g "24022026" = some ⟨2026, 2, 24⟩
  ∧ parseDate g "2026-02-24" = some ⟨2026, 2, 24⟩
  ∧ parseDate (fun _ => none) "not-a-date" = none
  ∧ (parseDate g "05042026" = some ⟨2026, 4, 5⟩ ∧
      (⟨2026, 4, 5⟩ : CalendarDate) ≠ ⟨2026, 5, 4⟩)
  ∧ parseDate g "32012026" = some ⟨2026, 2, 1⟩
  ∧ (∀ s : String, ¬(s = "") →
      ((jsTrim s).toList.length = 8 ∧ (jsTrim s).toList.all Char.isDigit) →
      parseDate g s = some (jsNewDateYMD
        ((digitsVal ((jsTrim s).toList.drop 4) : ℤ))
        ((digitsVal (((jsTrim s).toList.drop 2).take 2) : ℤ) - 1)
        ((digitsVal ((jsTrim s).toList.take 2) : ℤ)))) := by
  refine ⟨by rfl, by rfl, by rfl, ⟨by rfl, by decide⟩, by rfl, ?_⟩
  intro s hs h8
  simp only [parseDate]
  rw [if_neg hs, if_pos h8]

set_option maxRecDepth 8000 in
/-- Witness for C8 at a concrete 8-digit input for the universal
day-first conjunct. -/
theorem c8_parseDate_amended_witness :
    parseDate (fun _ => none) "31122030" = some (jsNewDateYMD
      ((digitsVal ((jsTrim "31122030").toList.drop 4) : ℤ))
      ((digitsVal (((jsTrim "31122030").toList.drop 2).take 2) : ℤ) - 1)
      ((digitsVal ((jsTrim "31122030").toList.take 2) : ℤ))) :=
  (c8_parseDate_amended (fun _ => none)).2.2.2.2.2 "31122030" (by decide) (by decide)

/-- A three-guard chain of continue statements succeeds exactly when all
three guards are false. -/
theorem threeGuard_eq_true (a b c : Bool) :
    (if a then false else if b then false else if c then false else true) = true ↔
      a = false ∧ b = false ∧ c = false := by
  cases a <;> cases b <;> cases c <;> simp

/-- The first continue guard of the delivery window (start missing,
falsy, or in the future) is false exactly for a nonzero numeric start
not after now. -/
theorem startGuard_false_iff (st : Option JsNum) (now : ℚ) :
    (!optTruthy st || jsGtO st now) = false ↔
      ∃ sq : ℚ, st = some (JsNum.num sq) ∧ sq ≠ 0 ∧ sq ≤ now := by
  rcases st with _ | v
  · simp [optTruthy]
  · cases v with
    | num q => simp [optTruthy, JsNum.truthy, jsGtO, not_lt]
    | nan => simp [optTruthy, JsNum.truthy]

/-- The second continue guard (not unlimited, and end missing, falsy or
in the past) is false exactly when the order is unlimited-end or has a
nonzero numeric end not before now. -/
theorem endGuard_false_iff (u : Bool) (en : Option JsNum) (now : ℚ) :
    (!u && (!optTruthy en || jsLtO en now)) = false ↔
      (u = true ∨ ∃ ev : ℚ, en = some (JsNum.num ev) ∧ ev ≠ 0 ∧ now ≤ ev) := by
  cases u
  · simp only [Bool.not_false, Bool.true_and, Bool.false_eq_true, false_or]
    rcases en with _ | v
    · simp [optTruthy]
    · cases v with
      | num q => simp [optTruthy, JsNum.truthy, jsLtO, not_lt]
      | nan => simp [optTruthy, JsNum.truthy]
  · simp

/-- The delivery-window checks succeed exactly when the parsed start is
a nonzero number between now - 365.25 days and now, and the order is
unlimited-end or its parsed end is a nonzero number not before now. -/
theorem windowKeeps_eq_true_iff (dateParse : String → JsNum) (o : RawOrder) (now : ℚ) :
    windowKeeps dateParse o now = true ↔
      ((∃ sq : ℚ, parseTime dateParse o.startTimeRaw = some (JsNum.num sq) ∧ sq ≠ 0 ∧
          sq ≤ now ∧ now - oneYearMs ≤ sq) ∧
       (o.unlimited = true ∨
         ∃ ev : ℚ, parseTime dateParse o.endTimeRaw = some (JsNum.num ev) ∧ ev ≠ 0 ∧ now ≤ ev)) := by
  simp only [windowKeeps]
  rw [threeGuard_eq_true, startGuard_false_iff, endGuard_false_iff]
  constructor
  · rintro ⟨⟨sq, hsq, hnz, hle⟩, hend, hstale⟩
    refine ⟨⟨sq, hsq, hnz, hle, ?_⟩, hend⟩
    rw [hsq] at hstale
    simpa [jsLtO, not_lt] using hstale
  · rintro ⟨⟨sq, hsq, hnz, hle, hyear⟩, hend⟩
    refine ⟨⟨sq, hsq, hnz, hle⟩, hend, ?_⟩
    rw [hsq]
    simp [jsLtO, not_lt, hyear]

/-- C1 counterexample: with now = 0, an order whose parsed start is one
day before the epoch and whose parsed end is exactly the epoch (0
milliseconds) satisfies the claim conditions (start present and not
after now; end present and not before now; start within 365.25 days),
yet the code excludes it, because the zero end timestamp is falsy in JS:
presence alone is not enough. -/
theorem c1_delivering_counterexample :
    deliveringSpec
      (parseTime (fun _ => JsNum.nan)
        (TimeInput.obj ⟨some (JsNum.num (-86400)), none, some (JsNum.num 0), none⟩))
      (parseTime (fun _ => JsNum.nan)
        (TimeInput.obj ⟨some (JsNum.num 0), none, none, none⟩))
      false 0 = true
  ∧ orderEntry (fun _ => JsNum.nan) true
      ⟨TimeInput.obj ⟨some (JsNum.num (-86400)), none, some (JsNum.num 0), none⟩,
       TimeInput.obj ⟨some (JsNum.num 0), none, none, none⟩,
       false, RawStatus.str "APPROVED"⟩ 0 = none := by
  have h1 : parseTime (fun _ => JsNum.nan)
      (TimeInput.obj ⟨some (JsNum.num (-86400)), none, some (JsNum.num 0), none⟩) =
      some (JsNum.num (-86400000)) := by
    simp only [parseTime, Option.orElse, jsOrZero, Option.getD]
    norm_num
  have h2 : parseTime (fun _ => JsNum.nan)
      (TimeInput.obj ⟨some (JsNum.num 0), none, none, none⟩) =
      some (JsNum.num 0) := by
    simp only [parseTime, Option.orElse, jsOrZero, Option.getD]
    norm_num
  constructor
  · rw [h1, h2]
    simp only [deliveringSpec, oneYearMs]
    norm_num
  · simp only [orderEntry, Bool.true_and]
    have hw : windowKeeps (fun _ => JsNum.nan)
        ⟨TimeInput.obj ⟨some (JsNum.num (-86400)), none, some (JsNum.num 0), none⟩,
         TimeInput.obj ⟨some (JsNum.num 0), none, none, none⟩,
         false, RawStatus.str "APPROVED"⟩ 0 = false := by
      rw [← Bool.not_eq_true, windowKeeps_eq_true_iff]
      rintro ⟨-, hend⟩
      rcases hend with hu | ⟨ev, hev, hnz, -⟩
      · cases hu
      · rw [h2] at hev
        have hev0 : ev = 0 := by
          injection hev with hinj
          injection hinj with hq
          exact hq.symm
        exact hnz hev0
    rw [hw]
    simp

/-- C1 amended: when the currently-delivering filter is requested, an
order is kept and labeled DELIVERING exactly when the parsed start time
is a nonzero (JS-truthy) number that is not after now and not earlier
than now minus 365.25 days, and the order is flagged unlimited-end or
its parsed end time is a nonzero number not before now; a parsed
timestamp of exactly 0 is treated as missing.  When the filter is not
requested, every order is kept with its raw status normalized. -/
theorem c1_delivering_amended (dateParse : String → JsNum) (o : RawOrder) (now : ℚ) :
    (orderEntry dateParse true o now = some (StatusVal.s "DELIVERING") ↔
      ((∃ sq : ℚ, parseTime dateParse o.startTimeRaw = some (JsNum.num sq) ∧ sq ≠ 0 ∧
          sq ≤ now ∧ now - oneYearMs ≤ sq) ∧
       (o.unlimited = true ∨
         ∃ ev : ℚ, parseTime dateParse o.endTimeRaw = some (JsNum.num ev) ∧ ev ≠ 0 ∧ now ≤ ev)))
  ∧ orderEntry dateParse false o now = some (normalizeOrderStatus o.rawStatus) := by
  constructor
  · rw [← windowKeeps_eq_true_iff]
    rcases h : windowKeeps dateParse o now with _ | _
    · simp [orderEntry, h]
    · simp [orderEntry, h]
  · simp [orderEntry]

end GamCli
